import Mathlib

/-!
Shallow embedding of the sfconversions crate (src/constructors.rs,
src/fromsf.rs, src/tosf.rs, src/vctrs.rs).

Modelling conventions:
* R SEXP values, as used by this crate, are modelled by the inductive
  type `Sexp α`: real vectors (with an optional integer `dim` attribute
  and an optional `class` attribute), generic lists, external pointers
  wrapping a `Geom`, and the R NULL value (which cannot carry
  attributes).
* The f64 coordinate scalars are an abstract type parameter `α`: the
  crate never computes with coordinate values, it only moves them, so
  every embedded function is polymorphic in the scalar type.
* `savvy::Result` is modelled by `Res`: `ok`, `err` (an `Err` value,
  carrying the message string the source builds with `"...".into()`),
  and `panicked` for Rust panics (out-of-bounds slice indexing,
  `Option::unwrap` on `None`, explicit `panic!`), which are not
  catchable by the `match`/`?` error handling in this crate.
* Rust's `i32 as usize` cast sign-extends and reinterprets; it is
  modelled by reduction modulo 2^64 (`usizeOfInt`).  The intermediate
  i32 arithmetic in `to_index` stays far inside the i32 range at every
  call site (j is 0 or 1 and 0 <= i < nrow with nrow an R matrix
  dimension), so i32 wrapping is not modelled.
-/

namespace SfConv

/-- Outcome of a fallible Rust computation: an Ok value, an Err value
carrying the error message, or a panic (unwinding, not catchable by the
error handling used in this crate). -/
inductive Res (σ : Type) where
  | ok (val : σ)
  | err (msg : String)
  | panicked
deriving Repr

/-- Bind for `Res`: Ok feeds the continuation, Err and panics propagate
(the semantics of the `?` operator plus panic unwinding). -/
def Res.bind {σ β : Type} : Res σ → (σ → Res β) → Res β
  | .ok a, f => f a
  | .err e, _ => .err e
  | .panicked, _ => .panicked

instance : Monad Res where
  pure := Res.ok
  bind := Res.bind

/-- Sequential fallible map, the semantics of a Rust `for` loop (or
`collect::<Result<Vec<_>>>`) that stops at the first Err or panic. -/
def Res.listMapM {σ β : Type} (f : σ → Res β) : List σ → Res (List β)
  | [] => .ok []
  | a :: as => do
    let b ← f a
    let bs ← Res.listMapM f as
    pure (b :: bs)

/-- Sequential fallible left fold, the semantics of a Rust loop that
threads a mutable accumulator and can panic. -/
def Res.listFoldlM {σ β : Type} (f : β → σ → Res β) : β → List σ → Res β
  | b, [] => .ok b
  | b, a :: as => do
    let c ← f b a
    Res.listFoldlM f c as

/-- A 2-dimensional coordinate, geo_types `Coord` with abstract scalars. -/
structure Coord (α : Type) where
  x : α
  y : α
deriving Repr

/-- geo_types `Point`, a newtype around `Coord`. -/
structure Point (α : Type) where
  c : Coord α
deriving Repr

/-- geo_types `Polygon`: one exterior ring and a sequence of interior
rings, each ring a `LineString` i.e. a coordinate list. -/
structure Polygon (α : Type) where
  exterior : List (Coord α)
  interiors : List (List (Coord α))
deriving Repr

/-- geo_types `Geometry` enum.  The first six variants are the ones this
crate converts; the remaining variants exist only to hit the catch-all
arms (`to_sfg` returns NULL for them). -/
inductive Geometry (α : Type) where
  | point (p : Point α)
  | multiPoint (ps : List (Point α))
  | lineString (coords : List (Coord α))
  | multiLineString (ls : List (List (Coord α)))
  | polygon (p : Polygon α)
  | multiPolygon (ps : List (Polygon α))
  | line (s e : Coord α)
  | rect (lo hi : Coord α)
  | triangle (a b c : Coord α)
  | geometryCollection (gs : List (Geometry α))

/-- The crate's `Geom` wrapper struct with its single `geom` field. -/
structure Geom (α : Type) where
  geom : Geometry α

/-- R SEXP values as this crate consumes and produces them: real
vectors (data, optional integer dim attribute, optional class
attribute), lists, external pointers wrapping a `Geom`, and NULL. -/
inductive Sexp (α : Type) where
  | real (data : List α) (dim : Option (List Int)) (cls : Option (List String))
  | list (children : List (Sexp α)) (cls : Option (List String))
  | geomPtr (geom : Geom α) (cls : Option (List String))
  | null

/-- savvy `Sexp::get_class`: the class attribute, `None` on R NULL. -/
def getClass {α : Type} : Sexp α → Option (List String)
  | .real _ _ c => c
  | .list _ c => c
  | .geomPtr _ c => c
  | .null => none

/-- A real vector together with its dim attribute, savvy `RealSexp` as
`matrix_to_coords`/`matrix_to_points` see it. -/
structure RealSexp (α : Type) where
  data : List α
  dim : Option (List Int)

/-- The error message savvy produces when `try_into` is applied to a
SEXP of the wrong type (stand-in constant; its exact text is never
inspected by the crate). -/
def typeMismatchMsg : String := "unexpected SEXP type"

/-- savvy `Sexp -> RealSexp` conversion (`x.try_into()?`). -/
def sexpToReal {α : Type} : Sexp α → Res (RealSexp α)
  | .real d dim _ => .ok ⟨d, dim⟩
  | _ => .err typeMismatchMsg

/-- savvy `Sexp -> ListSexp` conversion (`x.try_into()?`). -/
def sexpToList {α : Type} : Sexp α → Res (List (Sexp α))
  | .list ch _ => .ok ch
  | _ => .err typeMismatchMsg

/-- The crate's `Sexp -> Geom` conversion used by `sfg_to_geom`
(`geom_sexp.try_into()`): succeeds only on a Geom external pointer. -/
def sexpToGeom {α : Type} : Sexp α → Res (Geom α)
  | .geomPtr g _ => .ok g
  | _ => .err typeMismatchMsg

/-- 2^64, the modulus of Rust's `usize` on a 64-bit target. -/
def usizeMod : Int := 18446744073709551616

/-- Rust `i32 as usize`: sign-extend and reinterpret, i.e. reduce
modulo 2^64 (a negative i32 becomes a value near 2^64). -/
def usizeOfInt (z : Int) : Nat := (z % usizeMod).toNat

/-- Rust slice indexing `slice[idx]`: panics when the index is out of
bounds. -/
def sliceGet {α : Type} (l : List α) (n : Nat) : Res α :=
  if h : n < l.length then .ok (l.get ⟨n, h⟩) else .panicked

/-- Rust indexed assignment `out[idx] = v` into a vector of known
length: panics when the index is out of bounds. -/
def sliceSet {α : Type} (l : List α) (n : Nat) (v : α) : Res (List α) :=
  if n < l.length then .ok (l.set n v) else .panicked

/-! ## src/constructors.rs -/

/-- constructors.rs `to_index`: the column-major offset the crate uses,
`(nrow * (j - 1) + i) as usize`.  Note the `j - 1`: for the x column
(j = 0) this is `i - nrow`, negative for every row, which the usize
cast turns into a value near 2^64. -/
def to_index (i j nrow : Int) : Nat := usizeOfInt (nrow * (j - 1) + i)

/-- constructors.rs error message for input without a 2-long dim
attribute (also returned, verbatim, by `geom_polygon` and
`polygon_inner` for an empty ring list). -/
def notMatrixMsg : String := "Not a matrix"

/-- constructors.rs error message for a matrix whose column count is
not 2.  A fixed string: it does not depend on the actual column
count. -/
def shapeColsMsg : String :=
  "Matrix should have only 2 columns for x and y coordinates, respectively."

/-- constructors.rs `matrix_to_coords`: check the dim attribute is
2-long, check the column count is 2, then read the x and y of row i at
offsets `to_index i 0 nrow` and `to_index i 1 nrow` of the flat
buffer. -/
def matrix_to_coords {α : Type} (x : RealSexp α) : Res (List (Coord α)) :=
  match x.dim with
  | some [nrow, ncol] =>
    if ncol ≠ 2 then .err shapeColsMsg
    else
      Res.listMapM
        (fun i => do
          let xv ← sliceGet x.data (to_index (i : Nat) 0 nrow)
          let yv ← sliceGet x.data (to_index (i : Nat) 1 nrow)
          pure (Coord.mk xv yv))
        (List.range nrow.toNat)
  | _ => .err notMatrixMsg

/-- constructors.rs `matrix_to_points`: same as `matrix_to_coords` but
wrapping each coordinate as a `Point`. -/
def matrix_to_points {α : Type} (x : RealSexp α) : Res (List (Point α)) :=
  match x.dim with
  | some [nrow, ncol] =>
    if ncol ≠ 2 then .err shapeColsMsg
    else
      Res.listMapM
        (fun i => do
          let xv ← sliceGet x.data (to_index (i : Nat) 0 nrow)
          let yv ← sliceGet x.data (to_index (i : Nat) 1 nrow)
          pure (Point.mk (Coord.mk xv yv)))
        (List.range nrow.toNat)
  | _ => .err notMatrixMsg

/-- constructors.rs `geom_point`: wrap an x and y value as a Point Geom
external pointer with class `["point", "Geom"]`. -/
def geom_point {α : Type} (x y : α) : Res (Sexp α) :=
  .ok (.geomPtr ⟨.point ⟨⟨x, y⟩⟩⟩ (some [("point"), ("Geom")]))

/-- constructors.rs `geom_multipoint`. -/
def geom_multipoint {α : Type} (x : RealSexp α) : Res (Sexp α) := do
  let pts ← matrix_to_points x
  pure (.geomPtr ⟨.multiPoint pts⟩ (some [("multipoint"), ("Geom")]))

/-- constructors.rs `geom_linestring`. -/
def geom_linestring {α : Type} (x : RealSexp α) : Res (Sexp α) := do
  let coords ← matrix_to_coords x
  pure (.geomPtr ⟨.lineString coords⟩ (some [("linestring"), ("Geom")]))

/-- constructors.rs `geom_multilinestring`: each child of the list is
converted to a real matrix and decoded to a LineString, in order. -/
def geom_multilinestring {α : Type} (x : List (Sexp α)) : Res (Sexp α) := do
  let lns ← Res.listMapM
    (fun c => do
      let r ← sexpToReal c
      matrix_to_coords r)
    x
  pure (.geomPtr ⟨.multiLineString lns⟩ (some [("multilinestring"), ("Geom")]))

/-- constructors.rs `geom_polygon`: the first child is the exterior
ring, the remaining children the interior rings in order; an empty list
returns the error `"Not a matrix"` (the message of the missing-dim
shape error, reused verbatim at the `None => return Err(..)` arm). -/
def geom_polygon {α : Type} (x : List (Sexp α)) : Res (Sexp α) :=
  match x with
  | [] => .err notMatrixMsg
  | first :: rest => do
    let r ← sexpToReal first
    let exterior ← matrix_to_coords r
    let interiors ← Res.listMapM
      (fun xi => do
        let ri ← sexpToReal xi
        matrix_to_coords ri)
      rest
    pure (.geomPtr ⟨.polygon ⟨exterior, interiors⟩⟩ (some [("polygon"), ("Geom")]))

/-- constructors.rs `polygon_inner`: same ring assembly as
`geom_polygon` but producing a bare `Polygon` (used by
`geom_multipolygon`). -/
def polygon_inner {α : Type} (x : List (Sexp α)) : Res (Polygon α) :=
  match x with
  | [] => .err notMatrixMsg
  | first :: rest => do
    let r ← sexpToReal first
    let exterior ← matrix_to_coords r
    let interiors ← Res.listMapM
      (fun xi => do
        let ri ← sexpToReal xi
        matrix_to_coords ri)
      rest
    pure (Polygon.mk exterior interiors)

/-- constructors.rs `geom_multipolygon`: each child is itself a list of
ring matrices, decoded by `polygon_inner`, in order. -/
def geom_multipolygon {α : Type} (x : List (Sexp α)) : Res (Sexp α) := do
  let polys ← Res.listMapM
    (fun c => do
      let ch ← sexpToList c
      polygon_inner ch)
    x
  pure (.geomPtr ⟨.multiPolygon polys⟩ (some [("multipolygon"), ("Geom")]))

/-! ## src/fromsf.rs -/

/-- fromsf.rs `sfg_to_rsgeo`: dispatch on the second class string
(`classes.get(1)`) of the input sfg; the six supported tags go to the
corresponding constructor, everything else (including an absent class
attribute, hence R NULL) returns the R NULL marker as an Ok value.

The source's POINT arm, `geom_point(x.try_into()?)`, passes the whole
SEXP to a two-argument function; it is modelled as extracting the two
entries of the sfg POINT real vector (layout `[x, y]` per the crate's
own doc example and per `from_point` in tosf.rs) and calling
`geom_point` on them. -/
def sfg_to_rsgeo {α : Type} (x : Sexp α) : Res (Sexp α) :=
  match getClass x with
  | some classes =>
    match classes[1]? with
    | some tag =>
      if tag = "POINT" then do
        let r ← sexpToReal x
        let xv ← sliceGet r.data 0
        let yv ← sliceGet r.data 1
        geom_point xv yv
      else if tag = "MULTIPOINT" then do
        let r ← sexpToReal x
        geom_multipoint r
      else if tag = "LINESTRING" then do
        let r ← sexpToReal x
        geom_linestring r
      else if tag = "MULTILINESTRING" then do
        let ch ← sexpToList x
        geom_multilinestring ch
      else if tag = "POLYGON" then do
        let ch ← sexpToList x
        geom_polygon ch
      else if tag = "MULTIPOLYGON" then do
        let ch ← sexpToList x
        geom_multipolygon ch
      else .ok .null
    | none => .ok .null
  | none => .ok .null

/-- The tag `sfg_to_rsgeo` dispatches on: entry 1 of the class
attribute, when both exist. -/
def tagOf {α : Type} (x : Sexp α) : Option String :=
  match getClass x with
  | some classes => classes[1]?
  | none => none

/-- The six geometry-kind tags `sfg_to_rsgeo` recognizes. -/
def supportedKinds : List String :=
  [("POINT"), ("MULTIPOINT"), ("LINESTRING"), ("MULTILINESTRING"),
   ("POLYGON"), ("MULTIPOLYGON")]

/-- fromsf.rs `sfg_to_geom`: run `sfg_to_rsgeo` and convert the
resulting SEXP back into a `Geom` (an error for the NULL marker). -/
def sfg_to_geom {α : Type} (x : Sexp α) : Res (Geom α) := do
  let s ← sfg_to_rsgeo x
  sexpToGeom s

/-- One element of `sfc_to_geometry`: Ok becomes `some`, an Err value
becomes `none`, a panic propagates (Rust panics are not caught by the
`match` in the source). -/
def sfgToGeometryElem {α : Type} (s : Sexp α) : Res (Option (Geometry α)) :=
  match sfg_to_geom s with
  | .ok g => .ok (some g.geom)
  | .err _ => .ok none
  | .panicked => .panicked

/-- fromsf.rs `sfc_to_geometry`: per-element conversion of an sfc list,
mapping failing elements to `none`. -/
def sfc_to_geometry {α : Type} (x : List (Sexp α)) :
    Res (List (Option (Geometry α))) :=
  Res.listMapM sfgToGeometryElem x

/-- One element of `sfc_to_geoms` (same policy as `sfc_to_geometry`
but keeping the `Geom` wrapper). -/
def sfgToGeomElem {α : Type} (s : Sexp α) : Res (Option (Geom α)) :=
  match sfg_to_geom s with
  | .ok g => .ok (some g)
  | .err _ => .ok none
  | .panicked => .panicked

/-- fromsf.rs `sfc_to_geoms`. -/
def sfc_to_geoms {α : Type} (x : List (Sexp α)) :
    Res (List (Option (Geom α))) :=
  Res.listMapM sfgToGeomElem x

/-! ## src/vctrs.rs

String helpers: Rust's `to_uppercase`, `to_lowercase`, `starts_with`
and `split_off` are modelled on the character list underlying the
string (all strings involved are ASCII). -/

/-- ASCII upper-casing of one character (what Rust `to_uppercase` does
on the ASCII class strings this crate uses). -/
def asciiUpperChar (c : Char) : Char :=
  if 97 ≤ c.toNat ∧ c.toNat ≤ 122 then Char.ofNat (c.toNat - 32) else c

/-- ASCII lower-casing of one character. -/
def asciiLowerChar (c : Char) : Char :=
  if 65 ≤ c.toNat ∧ c.toNat ≤ 90 then Char.ofNat (c.toNat + 32) else c

/-- Rust `str::to_uppercase` on ASCII strings. -/
def rustToUppercase (s : String) : String := ⟨s.data.map asciiUpperChar⟩

/-- Rust `str::to_lowercase` on ASCII strings. -/
def rustToLowercase (s : String) : String := ⟨s.data.map asciiLowerChar⟩

/-- Rust `str::starts_with` on ASCII strings. -/
def rustStartsWith (s p : String) : Bool := p.data.isPrefixOf s.data

/-- Rust `String::split_off n`, the suffix from byte n on (ASCII
strings, so byte index = character index; n is in bounds at the one
call site, guarded by `starts_with("rs_")`). -/
def rustSplitOff (s : String) (n : Nat) : String := ⟨s.data.drop n⟩

/-- vctrs.rs `geom_class`: the four-element vctrs class vector for a
geometry kind name. -/
def geom_class (cls : String) : List String :=
  let up := rustToUppercase cls
  [("rs_") ++ up, ("rsgeo"), ("vctrs_vctr"), ("list")]

/-- Insertion into a set of strings modelled as a duplicate-free list
(`HashSet::insert`).  Iteration order of a `HashSet` is arbitrary, but
`determine_geoms_class` only reads an element from it when the set is a
singleton, so the insertion-order list model is faithful. -/
def hashsetInsert (s : List String) (a : String) : List String :=
  if a ∈ s then s else s ++ [a]

/-- Collect a list of strings into a set (`collect::<HashSet<_>>`). -/
def collectSet (l : List String) : List String :=
  l.foldl hashsetInsert []

/-- vctrs.rs `determine_geoms_class`: take the first class string of
every element (`get_class().unwrap().first().unwrap()` — both unwraps
panic when the element is R NULL or has an empty class vector), form
the set, and classify: more than one distinct tag gives
"geometrycollection", exactly one gives that tag, an empty set panics
(`iter().next().unwrap()`). -/
def determine_geoms_class {α : Type} (x : List (Sexp α)) :
    Res (List String) := do
  let classes ← Res.listMapM
    (fun e =>
      match getClass e with
      | some cls =>
        match cls.head? with
        | some c => Res.ok c
        | none => Res.panicked
      | none => Res.panicked)
    x
  let set := collectSet classes
  let kind ←
    if set.length > 1 then Res.ok ("geometrycollection")
    else
      match set.head? with
      | some c => Res.ok c
      | none => Res.panicked
  pure (geom_class kind)

/-- vctrs.rs `is_rsgeo`: the first class string exists and starts with
"rs_". -/
def is_rsgeo {α : Type} (x : Sexp α) : Bool :=
  match getClass x with
  | some cls =>
    match cls.head? with
    | some first => rustStartsWith first ("rs_")
    | none => false
  | none => false

/-- The error message of vctrs.rs `rsgeo_type`. -/
def notRsgeoMsg : String := "object is not an `rsgeo` vector"

/-- vctrs.rs `rsgeo_type`: keep the class vector only when it does NOT
contain "rsgeo" (the guard in the source is `!classes.contains(&"rsgeo")`),
otherwise return the error; then unwrap the first class string (panic
when the class vector is empty), `panic!` when it does not start with
"rs_", and otherwise return the lower-cased remainder after the three
bytes "rs_". -/
def rsgeo_type {α : Type} (x : Sexp α) : Res String :=
  match getClass x with
  | some classes =>
    if ("rsgeo") ∈ classes then .err notRsgeoMsg
    else
      match classes.head? with
      | some cls =>
        if rustStartsWith cls ("rs_") then
          .ok (rustToLowercase (rustSplitOff cls 3))
        else .panicked
      | none => .panicked
  | none => .err notRsgeoMsg

/-- fromsf.rs `sfc_to_rsgeo`: convert every element with
`sfg_to_rsgeo`, the `?` aborting the whole conversion at the first
element error; then attach the class computed by
`determine_geoms_class`. -/
def sfc_to_rsgeo {α : Type} (x : List (Sexp α)) : Res (Sexp α) := do
  let vals ← Res.listMapM sfg_to_rsgeo x
  let cls ← determine_geoms_class vals
  pure (.list vals (some cls))

/-! ## src/tosf.rs -/

/-- tosf.rs `from_coord`: the `[x, y]` pair of a coordinate. -/
def from_coord {α : Type} (c : Coord α) : List α := [c.x, c.y]

/-- tosf.rs `from_point`: a flat length-2 real vector (note: no dim
attribute is attached) with class `["XY", "POINT", "sfg"]`. -/
def from_point {α : Type} (p : Point α) : Res (Sexp α) :=
  .ok (.real (from_coord p.c) none (some [("XY"), ("POINT"), ("sfg")]))

/-- tosf.rs `new_matrix`: allocate a zero-initialized real vector of
length `nrows * ncols` (`default` stands for R's 0.0 fill) and write
`f i j` at offset `to_index i j nrows` for every cell, in row-then-
column loop order; an out-of-range offset panics.  No dim attribute is
set. -/
def new_matrix {α : Type} [Inhabited α] (nrows ncols : Nat)
    (f : Nat → Nat → α) : Res (List α) :=
  Res.listFoldlM
    (fun out i =>
      Res.listFoldlM
        (fun out2 j =>
          sliceSet out2 (to_index (i : Nat) (j : Nat) (nrows : Nat)) (f i j))
        out (List.range ncols))
    (List.replicate (nrows * ncols) default) (List.range nrows)

/-- tosf.rs `from_multipoint`: write the coordinate pairs through
`new_matrix`, class `["XY", "MULTIPOINT", "sfg"]`.  The cell function
`|r, c| x[r][c]` is total at every reachable index (r < number of
points, c < 2), modelled with default-padded lookup. -/
def from_multipoint {α : Type} [Inhabited α] (x : List (Point α)) :
    Res (Sexp α) := do
  let pairs := x.map (fun p => from_coord p.c)
  let m ← new_matrix pairs.length 2 (fun r c => ((pairs.getD r []).getD c default))
  pure (.real m none (some [("XY"), ("MULTIPOINT"), ("sfg")]))

/-- tosf.rs `from_linestring`: write the coordinate pairs through
`new_matrix`, class `["XY", "LINESTRING", "sfg"]`. -/
def from_linestring {α : Type} [Inhabited α] (x : List (Coord α)) :
    Res (Sexp α) := do
  let pairs := x.map from_coord
  let m ← new_matrix pairs.length 2 (fun r c => ((pairs.getD r []).getD c default))
  pure (.real m none (some [("XY"), ("LINESTRING"), ("sfg")]))

/-- tosf.rs `from_multilinestring`: serialize each line string in
order, class `["XY", "MULTILINESTRING", "sfg"]`. -/
def from_multilinestring {α : Type} [Inhabited α]
    (x : List (List (Coord α))) : Res (Sexp α) := do
  let vals ← Res.listMapM from_linestring x
  pure (.list vals (some [("XY"), ("MULTILINESTRING"), ("sfg")]))

/-- tosf.rs `from_polygon`: exterior ring first, then the interior
rings in order, class `["XY", "POLYGON", "sfg"]`. -/
def from_polygon {α : Type} [Inhabited α] (x : Polygon α) :
    Res (Sexp α) := do
  let rings := x.exterior :: x.interiors
  let vals ← Res.listMapM from_linestring rings
  pure (.list vals (some [("XY"), ("POLYGON"), ("sfg")]))

/-- tosf.rs `from_multipolygon`: serialize each polygon in order,
class `["XY", "MULTIPOLYGON", "sfg"]`. -/
def from_multipolygon {α : Type} [Inhabited α] (x : List (Polygon α)) :
    Res (Sexp α) := do
  let vals ← Res.listMapM from_polygon x
  pure (.list vals (some [("XY"), ("MULTIPOLYGON"), ("sfg")]))

/-- tosf.rs `to_sfg`: match on the `Geometry` variant; the six
supported kinds go to their `from_*` serializer, everything else
returns R NULL as an Ok value. -/
def to_sfg {α : Type} [Inhabited α] (x : Geom α) : Res (Sexp α) :=
  match x.geom with
  | .point p => from_point p
  | .multiPoint ps => from_multipoint ps
  | .lineString cs => from_linestring cs
  | .multiLineString ls => from_multilinestring ls
  | .polygon p => from_polygon p
  | .multiPolygon ps => from_multipolygon ps
  | _ => .ok .null

/-- The Debug-format head `format!("{:?}", geom).split('(').next()`
computes in tosf.rs `determine_sfc_class`: the name of the `Geometry`
variant (geo_types derives `Debug`, whose output starts with the
variant name followed by an opening parenthesis or brace; `split`
always yields at least one piece, so the unwrap never panics). -/
def debugClass {α : Type} : Geometry α → String
  | .point _ => "Point"
  | .multiPoint _ => "MultiPoint"
  | .lineString _ => "LineString"
  | .multiLineString _ => "MultiLineString"
  | .polygon _ => "Polygon"
  | .multiPolygon _ => "MultiPolygon"
  | .line _ _ => "Line"
  | .rect _ _ => "Rect"
  | .triangle _ _ _ => "Triangle"
  | .geometryCollection _ => "GeometryCollection"

/-- The loop of tosf.rs `determine_sfc_class` with its `result`
accumulator: skip `None` elements; the first class seeds the
accumulator; a class differing from the accumulator returns
"GEOMETRYCOLLECTION" immediately (`break`). -/
def sfcClassLoop {α : Type} : List (Option (Geom α)) → String → String
  | [], acc => acc
  | none :: rest, acc => sfcClassLoop rest acc
  | some g :: rest, acc =>
    let cls := debugClass g.geom
    if acc = "" then sfcClassLoop rest cls
    else if acc ≠ cls then "GEOMETRYCOLLECTION"
    else sfcClassLoop rest acc

/-- tosf.rs `determine_sfc_class`: run the classifying loop starting
from the empty string (which is also the result when no `Some` element
is ever seen). -/
def determine_sfc_class {α : Type} (x : List (Option (Geom α))) : String :=
  sfcClassLoop x ""

/-- tosf.rs `geoms_to_sfc`: serialize each present element in
position; `None` elements keep the R NULL that `OwnedListSexp::new`
fills the output with. -/
def geoms_to_sfc {α : Type} [Inhabited α] (x : List (Option (Geom α))) :
    Res (Sexp α) := do
  let vals ← Res.listMapM
    (fun o =>
      match o with
      | some g => to_sfg g
      | none => Res.ok Sexp.null)
    x
  pure (.list vals none)

/-! ## Specification-side definition for the Coordinate Decoder claim

  The following definition follows the words of spec section 4.1, not
  the source; it exists only to be compared with `matrix_to_coords`. -/

/-- Coordinate Decoder contract as the spec states it: element at row
i, column j lives at offset `j * rows + i`; coordinate i is
`(buffer[offset i 0], buffer[offset i 1])`. -/
def spec_matrix_to_coords {α : Type} (buffer : List α) (rows : Nat) :
    Option (List (Coord α)) :=
  (List.range rows).mapM
    (fun i => do
      let xv ← buffer[0 * rows + i]?
      let yv ← buffer[1 * rows + i]?
      pure (Coord.mk xv yv))

/-- Replace the class attribute of a node (the identity on R NULL,
which cannot carry attributes); used to state that `sfg_to_rsgeo`
ignores every tag component except position 1. -/
def setCls {α : Type} : Sexp α → List String → Sexp α
  | .real d dim _, c => .real d dim (some c)
  | .list ch _, c => .list ch (some c)
  | .geomPtr g _, c => .geomPtr g (some c)
  | .null, _ => .null

/-! ## Helper lemmas -/

@[simp]
theorem Res.ok_bind {σ β : Type} (a : σ) (f : σ → Res β) :
    (Res.ok a >>= f) = f a := rfl

@[simp]
theorem Res.err_bind {σ β : Type} (e : String) (f : σ → Res β) :
    (Res.err e >>= f) = Res.err e := rfl

@[simp]
theorem Res.panicked_bind {σ β : Type} (f : σ → Res β) :
    ((Res.panicked : Res σ) >>= f) = Res.panicked := rfl

@[simp]
theorem Res.pure_eq_ok {σ : Type} (a : σ) : (pure a : Res σ) = Res.ok a := rfl

@[simp]
theorem Res.listMapM_nil {σ β : Type} (f : σ → Res β) :
    Res.listMapM f [] = Res.ok [] := rfl

@[simp]
theorem Res.listMapM_cons {σ β : Type} (f : σ → Res β) (a : σ) (as : List σ) :
    Res.listMapM f (a :: as) =
      (f a >>= fun b => Res.listMapM f as >>= fun bs => Res.ok (b :: bs)) := rfl

theorem Res.listMapM_append {σ β : Type} (f : σ → Res β) (xs ys : List σ) :
    Res.listMapM f (xs ++ ys) =
      (Res.listMapM f xs >>= fun as =>
        Res.listMapM f ys >>= fun bs => Res.ok (as ++ bs)) := by
  induction xs with
  | nil =>
    simp only [List.nil_append, Res.listMapM_nil, Res.ok_bind]
    cases Res.listMapM f ys <;> rfl
  | cons a as ih =>
    simp only [List.cons_append, Res.listMapM_cons, ih]
    cases f a <;> simp only [Res.ok_bind, Res.err_bind, Res.panicked_bind]
    cases Res.listMapM f as <;>
      simp only [Res.ok_bind, Res.err_bind, Res.panicked_bind]
    cases Res.listMapM f ys <;>
      simp only [Res.ok_bind, Res.err_bind, Res.panicked_bind, List.cons_append]

theorem sfcClassLoop_all_none {α : Type} (xs : List (Option (Geom α)))
    (acc : String) (h : ∀ o ∈ xs, o = none) : sfcClassLoop xs acc = acc := by
  induction xs with
  | nil => rfl
  | cons o rest ih =>
    cases o with
    | none => exact ih (fun o ho => h o (List.mem_cons_of_mem _ ho))
    | some g => exact absurd (h (some g) (List.mem_cons_self _ _)) (by simp)

theorem debugClass_ne_empty {α : Type} (g : Geometry α) : debugClass g ≠ "" := by
  cases g <;> simp [debugClass]

theorem sfcClassLoop_mismatch {α : Type} (xs : List (Option (Geom α)))
    (acc : String) (g : Geom α) (hacc : acc ≠ "") (hmem : some g ∈ xs)
    (hne : debugClass g.geom ≠ acc) :
    sfcClassLoop xs acc = "GEOMETRYCOLLECTION" := by
  induction xs with
  | nil => cases hmem
  | cons o rest ih =>
    cases o with
    | none =>
      have hg : some g ∈ rest := by
        rcases List.mem_cons.mp hmem with h1 | h2
        · exact absurd h1 (by simp)
        · exact h2
      simpa only [sfcClassLoop] using ih hg
    | some g0 =>
      simp only [sfcClassLoop, if_neg hacc]
      by_cases hc : acc = debugClass g0.geom
      · rw [if_neg (not_not_intro hc)]
        have hg : some g ∈ rest := by
          rcases List.mem_cons.mp hmem with h1 | h2
          · exact absurd (by rw [Option.some.inj h1, ← hc]) hne
          · exact h2
        exact ih hg
      · rw [if_pos hc]

theorem sfcClassLoop_two_kinds {α : Type} (xs : List (Option (Geom α)))
    (g h : Geom α) (hg : some g ∈ xs) (hh : some h ∈ xs)
    (hne : debugClass g.geom ≠ debugClass h.geom) :
    sfcClassLoop xs "" = "GEOMETRYCOLLECTION" := by
  induction xs with
  | nil => cases hg
  | cons o rest ih =>
    cases o with
    | none =>
      have hg2 : some g ∈ rest := by
        rcases List.mem_cons.mp hg with h1 | h2
        · exact absurd h1 (by simp)
        · exact h2
      have hh2 : some h ∈ rest := by
        rcases List.mem_cons.mp hh with h1 | h2
        · exact absurd h1 (by simp)
        · exact h2
      simpa only [sfcClassLoop] using ih hg2 hh2
    | some g0 =>
      have hstep : sfcClassLoop (some g0 :: rest) "" =
          sfcClassLoop rest (debugClass g0.geom) := by
        simp [sfcClassLoop]
      rw [hstep]
      by_cases hgc : debugClass g.geom = debugClass g0.geom
      · have hhne : debugClass h.geom ≠ debugClass g0.geom := by
          rw [← hgc]; exact fun he => hne he.symm
        have hh2 : some h ∈ rest := by
          rcases List.mem_cons.mp hh with h1 | h2
          · exact absurd (by rw [Option.some.inj h1]) hhne
          · exact h2
        exact sfcClassLoop_mismatch rest _ h (debugClass_ne_empty _) hh2 hhne
      · have hg2 : some g ∈ rest := by
          rcases List.mem_cons.mp hg with h1 | h2
          · exact absurd (by rw [Option.some.inj h1]) hgc
          · exact h2
        exact sfcClassLoop_mismatch rest _ g (debugClass_ne_empty _) hg2 hgc

/-! ## Claims -/

/-- C1.  The claim says decoding a 2-column matrix node uses the
column-major offset `j * rows + i`, so that the LINESTRING matrix with
3 rows and buffer [0,1,2,10,11,12] decodes to [(0,10), (1,11), (2,12)].
The source instead computes `to_index i j nrow = (nrow*(j-1)+i) as
usize`, whose x-column offset (j = 0) is `i - nrow`, negative, so the
usize cast sends it out of range and decoding panics on exactly that
input; the decoder written from the spec's own offset formula produces
the claimed coordinates. -/
theorem c1_column_major_decode_code_bug :
    matrix_to_coords (α := Nat) ⟨[0, 1, 2, 10, 11, 12], some [3, 2]⟩ =
      Res.panicked ∧
    spec_matrix_to_coords (α := Nat) [0, 1, 2, 10, 11, 12] 3 =
      some [⟨0, 10⟩, ⟨1, 11⟩, ⟨2, 12⟩] :=
  ⟨rfl, rfl⟩

/-- C2.  The claim states the round-trip law Serializer(Builder(n)) = n
for every well-formed tagged node of a supported kind.  On the code it
fails already at the 1-row LINESTRING node with buffer [0, 10] and dim
[1, 2]: the Builder (`sfg_to_rsgeo`) panics on the out-of-range
x-offset computed by `to_index`, and the Serializer's matrix writer
(`from_linestring`, via `new_matrix` and the same `to_index`) panics on
the corresponding 1-point line string, so no round trip is possible. -/
theorem c2_round_trip_code_bug :
    sfg_to_rsgeo
      (Sexp.real ([0, 10] : List Nat) (some [1, 2])
        (some [("XY"), ("LINESTRING"), ("sfg")])) = Res.panicked ∧
    from_linestring ([⟨0, 10⟩] : List (Coord Nat)) = Res.panicked :=
  ⟨rfl, rfl⟩

/-- C3 counterexample.  The claim says a matrix node with column count
other than 2 fails with a ShapeError naming the expected versus actual
column count.  The error is in fact one fixed string: the nodes with
declared column counts 3 and 4 produce identical error values, and the
message does not contain the digit of either actual count, so it cannot
be naming the actual column count. -/
theorem c3_shape_error_names_actual_count_counterexample :
    matrix_to_coords (α := Nat) ⟨[], some [0, 3]⟩ = Res.err shapeColsMsg ∧
    matrix_to_coords (α := Nat) ⟨[], some [0, 4]⟩ = Res.err shapeColsMsg ∧
    shapeColsMsg.toList.contains ('3') = false ∧
    shapeColsMsg.toList.contains ('4') = false :=
  ⟨rfl, rfl, by decide, by decide⟩

/-- C3 amended.  For every matrix node declaring dimensions
[nrow, ncol] with ncol different from 2 — any row count, including 0, 1
and larger — decoding to coordinates and decoding to points both fail
with the fixed 2-column ShapeError message (which names the expected
count but not the actual one); they never succeed and never fail with a
different error. -/
theorem c3_wrong_column_count_always_shape_error {α : Type} (data : List α)
    (nrow ncol : Int) (h : ncol ≠ 2) :
    matrix_to_coords ⟨data, some [nrow, ncol]⟩ = Res.err shapeColsMsg ∧
    matrix_to_points ⟨data, some [nrow, ncol]⟩ = Res.err shapeColsMsg := by
  constructor <;> simp [matrix_to_coords, matrix_to_points, h]

/-- C3 witness: the amended theorem applied at the empty buffer with
declared dimensions [0, 3]. -/
theorem c3_wrong_column_count_witness :
    matrix_to_coords (α := Nat) ⟨[], some [0, 3]⟩ = Res.err shapeColsMsg ∧
    matrix_to_points (α := Nat) ⟨[], some [0, 3]⟩ = Res.err shapeColsMsg :=
  c3_wrong_column_count_always_shape_error [] 0 3 (by decide)

/-- C4.  The claim says a POLYGON list node with zero children fails
with an EmptyRingsError.  Both `geom_polygon` and `polygon_inner` (the
MULTIPOLYGON child path) do fail on the empty list, but with the error
message "Not a matrix" — the same error value the shape check returns
for a non-matrix input — not a dedicated empty-rings error; and the
claimed exterior/interior assembly for a node with at least one child
panics on any child matrix with one or more rows (third conjunct),
because of the `to_index` offset defect. -/
theorem c4_empty_polygon_code_bug :
    geom_polygon ([] : List (Sexp Nat)) = Res.err notMatrixMsg ∧
    polygon_inner ([] : List (Sexp Nat)) = Res.err notMatrixMsg ∧
    geom_polygon
      [Sexp.real ([0, 10] : List Nat) (some [1, 2])
        (some [("XY"), ("LINESTRING"), ("sfg")])] = Res.panicked :=
  ⟨rfl, rfl, rfl⟩

/-- C5.  Every input node whose class attribute is absent, or whose
position-1 class string is not one of the six supported kinds (POINT,
MULTIPOINT, LINESTRING, MULTILINESTRING, POLYGON, MULTIPOLYGON), is
mapped by the Builder to the Ok R NULL marker, never to an error. -/
theorem c5_unsupported_tag_gives_null {α : Type} (x : Sexp α)
    (h : ∀ t ∈ supportedKinds, tagOf x ≠ some t) :
    sfg_to_rsgeo x = Res.ok Sexp.null := by
  cases hc : getClass x with
  | none => simp [sfg_to_rsgeo, hc]
  | some classes =>
    cases ht : classes[1]? with
    | none => simp [sfg_to_rsgeo, hc, ht]
    | some tag =>
      have htag : tagOf x = some tag := by simp [tagOf, hc, ht]
      have h1 : tag ≠ "POINT" :=
        fun he => h ("POINT") (by simp [supportedKinds]) (he ▸ htag)
      have h2 : tag ≠ "MULTIPOINT" :=
        fun he => h ("MULTIPOINT") (by simp [supportedKinds]) (he ▸ htag)
      have h3 : tag ≠ "LINESTRING" :=
        fun he => h ("LINESTRING") (by simp [supportedKinds]) (he ▸ htag)
      have h4 : tag ≠ "MULTILINESTRING" :=
        fun he => h ("MULTILINESTRING") (by simp [supportedKinds]) (he ▸ htag)
      have h5 : tag ≠ "POLYGON" :=
        fun he => h ("POLYGON") (by simp [supportedKinds]) (he ▸ htag)
      have h6 : tag ≠ "MULTIPOLYGON" :=
        fun he => h ("MULTIPOLYGON") (by simp [supportedKinds]) (he ▸ htag)
      simp only [sfg_to_rsgeo, hc, ht]
      rw [if_neg h1, if_neg h2, if_neg h3, if_neg h4, if_neg h5, if_neg h6]

/-- C5 witness: a node tagged GEOMETRYCOLLECTION (not one of the six
kinds) maps to Ok NULL. -/
theorem c5_unsupported_tag_witness :
    sfg_to_rsgeo
      (Sexp.real ([0] : List Nat) none
        (some [("XY"), ("GEOMETRYCOLLECTION"), ("sfg")])) =
      Res.ok Sexp.null :=
  c5_unsupported_tag_gives_null _ (by decide)

/-- C6.  The Builder's branch depends only on position 1 of the class
vector: replacing the class vector of any node by another one that
agrees at position 1 (whatever the outermost or the remaining
components are) leaves the result of `sfg_to_rsgeo` unchanged. -/
theorem c6_dispatch_only_on_second_tag {α : Type} (x : Sexp α)
    (c1 c2 : List String) (h : c1[1]? = c2[1]?) :
    sfg_to_rsgeo (setCls x c1) = sfg_to_rsgeo (setCls x c2) := by
  cases x with
  | null => rfl
  | real d dim c0 =>
    simp only [sfg_to_rsgeo, setCls, getClass]
    rw [h]
    cases c2[1]? <;> rfl
  | list ch c0 =>
    simp only [sfg_to_rsgeo, setCls, getClass]
    rw [h]
    cases c2[1]? <;> rfl
  | geomPtr g c0 =>
    simp only [sfg_to_rsgeo, setCls, getClass]
    rw [h]
    cases c2[1]? <;> rfl

/-- C6 witness: two class vectors agreeing only at position 1 (the
outermost component and the tail differ) produce the same decoding. -/
theorem c6_dispatch_witness :
    sfg_to_rsgeo
      (setCls (Sexp.real ([0, 10] : List Nat) none none)
        [("XY"), ("POINT"), ("sfg")]) =
    sfg_to_rsgeo
      (setCls (Sexp.real ([0, 10] : List Nat) none none)
        [("AAA"), ("POINT")]) :=
  c6_dispatch_only_on_second_tag _ _ _ (by decide)

/-- C7.  The claim says the classifier ignores null elements, so that
[Point, Null, Point] classifies as point.  The code calls
`get_class().unwrap()` on every element including R NULL, whose class
attribute is None, so the vector containing a null element panics
instead (first conjunct); the homogeneous and mixed cases without nulls
behave as claimed (second and third conjuncts). -/
theorem c7_classifier_null_element_code_bug :
    determine_geoms_class
      [Sexp.geomPtr (α := Nat) ⟨.point ⟨⟨0, 0⟩⟩⟩ (some [("point"), ("Geom")]),
       Sexp.null,
       Sexp.geomPtr ⟨.point ⟨⟨1, 1⟩⟩⟩ (some [("point"), ("Geom")])] =
      Res.panicked ∧
    determine_geoms_class
      [Sexp.geomPtr (α := Nat) ⟨.point ⟨⟨0, 0⟩⟩⟩ (some [("point"), ("Geom")]),
       Sexp.geomPtr ⟨.point ⟨⟨1, 1⟩⟩⟩ (some [("point"), ("Geom")]),
       Sexp.geomPtr ⟨.point ⟨⟨2, 2⟩⟩⟩ (some [("point"), ("Geom")])] =
      Res.ok [("rs_POINT"), ("rsgeo"), ("vctrs_vctr"), ("list")] ∧
    determine_geoms_class
      [Sexp.geomPtr (α := Nat) ⟨.point ⟨⟨0, 0⟩⟩⟩ (some [("point"), ("Geom")]),
       Sexp.geomPtr ⟨.lineString []⟩ (some [("linestring"), ("Geom")])] =
      Res.ok [("rs_GEOMETRYCOLLECTION"), ("rsgeo"), ("vctrs_vctr"), ("list")] :=
  ⟨rfl, rfl, rfl⟩

/-- C8.  The claim says the element-kind extractor succeeds on every
handle whose tag is in the recognized namespace and fails with an error
value otherwise.  The source's guard is inverted
(`!classes.contains(&"rsgeo")`): a genuine rsgeo class vector
["rs_POINT", "rsgeo", "vctrs_vctr", "list"] is rejected with the
not-a-geometry-vector error (first conjunct); an absent class also
errors (second); a tag outside the namespace reaches the explicit
`panic!` instead of an error value (third); and a class vector with
"rs_POINT" but without the "rsgeo" marker — not a complete rsgeo tag —
is the one input that succeeds (fourth). -/
theorem c8_rsgeo_type_inverted_guard_code_bug :
    rsgeo_type
      (Sexp.list ([] : List (Sexp Nat))
        (some [("rs_POINT"), ("rsgeo"), ("vctrs_vctr"), ("list")])) =
      Res.err notRsgeoMsg ∧
    rsgeo_type (Sexp.list ([] : List (Sexp Nat)) none) =
      Res.err notRsgeoMsg ∧
    rsgeo_type (Sexp.list ([] : List (Sexp Nat)) (some [("foo")])) =
      Res.panicked ∧
    rsgeo_type (Sexp.list ([] : List (Sexp Nat)) (some [("rs_POINT")])) =
      Res.ok ("point") :=
  ⟨rfl, rfl, rfl, rfl⟩

/-- C9 counterexample.  The claim says a structural decoding error in
one element is never fatal to a whole-vector conversion.  For
`sfc_to_rsgeo` it is fatal: a vector whose first element is an empty
POLYGON list node and whose second is a valid POINT node converts to a
single error for the whole vector, not to a vector with the failing
position replaced by Absent. -/
theorem c9_vector_error_fatal_counterexample :
    sfc_to_rsgeo
      [Sexp.list ([] : List (Sexp Nat)) (some [("XY"), ("POLYGON"), ("sfg")]),
       Sexp.real [0, 10] none (some [("XY"), ("POINT"), ("sfg")])] =
      Res.err notMatrixMsg :=
  rfl

/-- C9 amended.  In `sfc_to_geometry` an element's decoding error is
local to that element: a vector with one failing element converts to
the conversions of the surrounding elements with the failing position
replaced by None.  (In `sfc_to_rsgeo`, by contrast, the per-element `?`
aborts the whole conversion at the first failing element, as the
counterexample shows.) -/
theorem c9_sfc_to_geometry_error_is_local {α : Type}
    (pre post : List (Sexp α)) (x : Sexp α) (e : String)
    (h : sfg_to_geom x = Res.err e) :
    sfc_to_geometry (pre ++ x :: post) =
      (sfc_to_geometry pre >>= fun as =>
        sfc_to_geometry post >>= fun bs => Res.ok (as ++ none :: bs)) := by
  have hx : sfgToGeometryElem x = Res.ok none := by
    unfold sfgToGeometryElem
    rw [h]
  unfold sfc_to_geometry
  rw [show pre ++ x :: post = pre ++ [x] ++ post from by simp,
    Res.listMapM_append, Res.listMapM_append]
  cases Res.listMapM sfgToGeometryElem pre <;>
    simp only [Res.ok_bind, Res.err_bind, Res.panicked_bind]
  simp only [Res.listMapM_cons, Res.listMapM_nil, hx, Res.ok_bind]
  cases Res.listMapM sfgToGeometryElem post <;>
    simp only [Res.ok_bind, Res.err_bind, Res.panicked_bind,
      List.singleton_append, List.append_assoc, List.cons_append,
      List.nil_append]

/-- C9 witness: applying the amended locality theorem to a vector whose
second element is the failing empty POLYGON node and whose first is a
valid POINT node. -/
theorem c9_sfc_to_geometry_witness :
    sfc_to_geometry
      [Sexp.real ([0, 10] : List Nat) none (some [("XY"), ("POINT"), ("sfg")]),
       Sexp.list [] (some [("XY"), ("POLYGON"), ("sfg")])] =
      Res.ok [some (.point ⟨⟨0, 10⟩⟩), none] := by
  have h := c9_sfc_to_geometry_error_is_local
    [Sexp.real ([0, 10] : List Nat) none (some [("XY"), ("POINT"), ("sfg")])]
    [] (Sexp.list [] (some [("XY"), ("POLYGON"), ("sfg")])) notMatrixMsg rfl
  exact h.trans rfl

/-- C10.  `determine_sfc_class` is total: on a vector whose elements
are all None (in particular the empty vector) it returns the empty
string; and whenever two present elements of distinct geometry kinds
occur, it returns "GEOMETRYCOLLECTION". -/
theorem c10_determine_sfc_class_total {α : Type}
    (xs : List (Option (Geom α))) :
    ((∀ o ∈ xs, o = none) → determine_sfc_class xs = "") ∧
    (∀ g h, some g ∈ xs → some h ∈ xs →
      debugClass g.geom ≠ debugClass h.geom →
      determine_sfc_class xs = "GEOMETRYCOLLECTION") := by
  constructor
  · exact fun h => sfcClassLoop_all_none xs "" h
  · exact fun g h hg hh hne => sfcClassLoop_two_kinds xs g h hg hh hne

/-- C10 witness: the mixed vector [Point, None, LineString] classifies
as GEOMETRYCOLLECTION, and the all-None vector classifies as the empty
string. -/
theorem c10_determine_sfc_class_witness :
    determine_sfc_class
      [some (Geom.mk (α := Nat) (.point ⟨⟨0, 0⟩⟩)), none,
       some ⟨.lineString []⟩] = "GEOMETRYCOLLECTION" ∧
    determine_sfc_class ([none, none] : List (Option (Geom Nat))) = "" :=
  ⟨(c10_determine_sfc_class_total _).2 ⟨.point ⟨⟨0, 0⟩⟩⟩ ⟨.lineString []⟩
      (by simp) (by simp) (by decide),
    (c10_determine_sfc_class_total _).1 (by simp)⟩

end SfConv
